import Mathlib

/-!
Verification development for a single-spool gas-turbine cycle model
(engine_components.py, run_design_point.py, run_off_design_solver.py).

The thermodynamic property/equilibrium engine (Cantera) and the numeric
root-finders (scipy brentq / fsolve) are external collaborators; they are
modelled by an abstract interface structure whose fields stand for the
operations the code invokes.  All machine arithmetic is modelled over the
rationals.  Component routines are translated statement by statement from
the source; operations that can raise in Python are Option-valued, and a
caught exception is a matched none.
-/

namespace GasTurbine

/-- Unit conversion constant PSI_TO_PA from engine_components.py. -/
def PSI_TO_PA : ℚ := 689476 / 100

/-- Unit conversion constant RANKINE_TO_KELVIN (1/1.8). -/
def RANKINE_TO_KELVIN : ℚ := 5 / 9

/-- Unit conversion constant KELVIN_TO_RANKINE (1.8). -/
def KELVIN_TO_RANKINE : ℚ := 9 / 5

/-- Unit conversion constant LBF_TO_N. -/
def LBF_TO_N : ℚ := 444822 / 100000

/-- Unit conversion constant LBM_TO_KG. -/
def LBM_TO_KG : ℚ := 453592 / 1000000

/-- Standard-day pressure in Pa. -/
def P_STD_PA : ℚ := 101325

/-- Standard-day temperature in K. -/
def T_STD_K : ℚ := 28815 / 100

/-- Standard-day pressure in psia. -/
def P_STD_PSIA : ℚ := P_STD_PA / PSI_TO_PA

/-- Standard-day temperature in Rankine. -/
def T_STD_R : ℚ := T_STD_K * KELVIN_TO_RANKINE

/-- Species mole-fraction composition of a gas mixture (the species the
program ever sets: O2, N2 and the n-dodecane surrogate fuel c12h26). -/
structure Comp where
  o2 : ℚ
  n2 : ℚ
  c12h26 : ℚ
deriving DecidableEq

/-- The air composition established by setup_gas: O2 0.21, N2 0.79. -/
def airX : Comp := ⟨21 / 100, 79 / 100, 0⟩

/-- GasState: one station's condition (composition, temperature K,
pressure Pa) plus mass flow, mirroring the GasState helper class. -/
structure GasSt where
  X : Comp
  T_K : ℚ
  P_Pa : ℚ
  W_kgps : ℚ := 0
deriving DecidableEq

/-- Abstract interface to the external collaborators: the gas
property/equilibrium engine (forward property reads are total; inverse
state-setting operations and equilibration may fail, i.e. raise) and the
numeric root-finders.  Instantiating the fields recovers a concrete
executable model. -/
structure Engine where
  /-- specific enthalpy (J/kg) read after a TP state set -/
  hX : Comp → ℚ → ℚ → ℚ
  /-- specific entropy (J/kg-K) read after a TP state set -/
  sX : Comp → ℚ → ℚ → ℚ
  /-- density (kg/m^3) read at a TP state -/
  rhoX : Comp → ℚ → ℚ → ℚ
  /-- mass specific heat cp at a TP state -/
  cpX : Comp → ℚ → ℚ → ℚ
  /-- mass specific heat cv at a TP state -/
  cvX : Comp → ℚ → ℚ → ℚ
  /-- sound speed at a TP state -/
  soundX : Comp → ℚ → ℚ → ℚ
  /-- mean molecular weight of a composition -/
  meanMW : Comp → ℚ
  /-- HP state set: temperature solving h(T,P) = h, may raise -/
  T_from_hP : Comp → ℚ → ℚ → Option ℚ
  /-- SP state set: temperature solving s(T,P) = s, may raise -/
  T_from_sP : Comp → ℚ → ℚ → Option ℚ
  /-- setState_SH: the (T, P) pair realising given entropy and enthalpy -/
  TP_from_sh : Comp → ℚ → ℚ → Option (ℚ × ℚ)
  /-- set X, set molar HP, equilibrate at constant HP: product composition
  and temperature, may raise -/
  equilibrateHP : Comp → ℚ → ℚ → Option (Comp × ℚ)
  /-- enthalpy of the fuel object at 298.15 K, 1 atm -/
  fuelH : ℚ
  /-- mean molecular weight of the pure-fuel object -/
  fuelMW : ℚ
  /-- model of numpy sqrt -/
  sqrt : ℚ → ℚ
  /-- model of the map gamma to (2/(gamma+1))^(gamma/(gamma-1)) -/
  powCrit : ℚ → ℚ
  /-- scipy brentq on a bracket: some root on success, none when it raises -/
  brentq : (ℚ → ℚ) → ℚ → ℚ → Option ℚ
  /-- scipy fsolve from a seed: some root when ier = 1, else none -/
  fsolve : (ℚ → ℚ) → ℚ → Option ℚ

/-- Inlet.calculate_ram: ram recovery, stations 0 to 2.  Imperial in,
Imperial out; at Mach 0 the ambient values are returned unchanged,
otherwise total enthalpy is built from flight kinetic energy and the
total state recovered isentropically via setState_SH. -/
def Inlet.calculate_ram (e : Engine) (P_amb_psia T_amb_R mn : ℚ) :
    Option (ℚ × ℚ) :=
  if mn = 0 then some (P_amb_psia, T_amb_R)
  else
    let T_amb_K := T_amb_R * RANKINE_TO_KELVIN
    let P_amb_Pa := P_amb_psia * PSI_TO_PA
    let h_amb_jkg := e.hX airX T_amb_K P_amb_Pa
    let s_amb_jkgK := e.sX airX T_amb_K P_amb_Pa
    let a_amb_mps := e.soundX airX T_amb_K P_amb_Pa
    let V_flight_mps := mn * a_amb_mps
    let h_total_jkg := h_amb_jkg + (1 / 2) * V_flight_mps ^ 2
    match e.TP_from_sh airX s_amb_jkgK h_total_jkg with
    | some (Tt_K, Pt_Pa) => some (Pt_Pa / PSI_TO_PA, Tt_K * KELVIN_TO_RANKINE)
    | none => none

/-- Compressor.calculate: stations 2 to 3.  Exit pressure is inlet
pressure times PR; ideal exit enthalpy from an isentropic state at the
exit pressure; real work is the ideal rise over the efficiency; exit
temperature read back from (h, P). -/
def Compressor.calculate (e : Engine) (Tt_in_R Pt_in_psia PR eff : ℚ) :
    Option (ℚ × ℚ × ℚ) :=
  let Tt_in_K := Tt_in_R * RANKINE_TO_KELVIN
  let Pt_in_Pa := Pt_in_psia * PSI_TO_PA
  let h_in_jkg := e.hX airX Tt_in_K Pt_in_Pa
  let s_in_jkgK := e.sX airX Tt_in_K Pt_in_Pa
  let Pt_out_Pa := Pt_in_Pa * PR
  match e.T_from_sP airX s_in_jkgK Pt_out_Pa with
  | none => none
  | some T_ideal_K =>
    let h_out_ideal_jkg := e.hX airX T_ideal_K Pt_out_Pa
    let W_comp_jkg := (h_out_ideal_jkg - h_in_jkg) / eff
    let h_out_jkg := h_in_jkg + W_comp_jkg
    match e.T_from_hP airX h_out_jkg Pt_out_Pa with
    | none => none
    | some Tt_out_K =>
      some (Pt_out_Pa / PSI_TO_PA, Tt_out_K * KELVIN_TO_RANKINE, W_comp_jkg)

/-- Burner internal helper _perform_combustion: HP-equilibrium combustion
at a given fuel/air ratio.  The fuel and air streams are mixed mole-wise,
the mixture enthalpy is the mass-weighted blend converted to a molar
basis, and the mixture is equilibrated at constant HP and the reduced
pressure.  On any failure inside the try block the upstream air
composition at the upstream temperature and the reduced pressure is
returned instead. -/
def Burner.perform_combustion (e : Engine) (state3 : GasSt)
    (far_target dP_frac : ℚ) : GasSt :=
  let Pt_out_Pa := state3.P_Pa * (1 - dP_frac)
  let h_air_in_jkg := e.hX state3.X state3.T_K state3.P_Pa
  let h_fuel_in_jkg := e.fuelH
  let h_in_jkg := (h_air_in_jkg + far_target * h_fuel_in_jkg) / (1 + far_target)
  let moles_air := 1 / e.meanMW state3.X
  let moles_fuel := far_target / e.fuelMW
  let moles_total := moles_air + moles_fuel
  let Xmix : Comp := ⟨moles_air * state3.X.o2 / moles_total,
                      moles_air * state3.X.n2 / moles_total,
                      moles_fuel * 1 / moles_total⟩
  let MW_unburned := e.meanMW Xmix
  let H_in_jkmol := h_in_jkg * MW_unburned
  match e.equilibrateHP Xmix H_in_jkmol Pt_out_Pa with
  | some (Xout, Tout) => { X := Xout, T_K := Tout, P_Pa := Pt_out_Pa }
  | none => { X := state3.X, T_K := state3.T_K, P_Pa := Pt_out_Pa }

/-- Burner.calculate_from_far (off-design solver mode): the fuel/air
ratio is given; the exit state is the combustion result directly. -/
def Burner.calculate_from_far (e : Engine) (state3 : GasSt)
    (far_target dP_frac : ℚ) : GasSt :=
  Burner.perform_combustion e state3 far_target dP_frac

/-- The objective function closed over by Burner.calculate_from_T4:
actual combustion temperature minus the target, guarded to 1e6 outside
the admissible fuel/air-ratio window [0.001, 0.1]. -/
def Burner.objective_func (e : Engine) (state3 : GasSt)
    (Tt_out_K dP_frac far_guess : ℚ) : ℚ :=
  if far_guess < 1 / 1000 ∨ far_guess > 1 / 10 then 1000000
  else (Burner.perform_combustion e state3 far_guess dP_frac).T_K - Tt_out_K

/-- Result of Burner.calculate_from_T4: the exit state, the fuel/air
ratio actually used, and whether the fallback warning was reported. -/
structure BurnerT4Result where
  state4 : GasSt
  far_actual : ℚ
  warned : Bool
deriving DecidableEq

/-- Burner.calculate_from_T4 (design-point mode): the fuel/air ratio is
the root of the exit-temperature objective over the bracket
[0.001, 0.05] found by brentq; if the bracketed search raises, a warning
is reported and the documented fallback ratio 0.017 is substituted. -/
def Burner.calculate_from_T4 (e : Engine) (state3 : GasSt)
    (Tt_out_R dP_frac : ℚ) : BurnerT4Result :=
  let Tt_out_K := Tt_out_R * RANKINE_TO_KELVIN
  let far_guess_initial : ℚ := 17 / 1000
  match e.brentq (Burner.objective_func e state3 Tt_out_K dP_frac)
      (1 / 1000) (1 / 20) with
  | some far_actual =>
      { state4 := Burner.perform_combustion e state3 far_actual dP_frac
        far_actual := far_actual
        warned := false }
  | none =>
      { state4 := Burner.perform_combustion e state3 far_guess_initial dP_frac
        far_actual := far_guess_initial
        warned := true }

/-- Turbine.calculate (off-design solver mode): expansion through a given
pressure ratio; ideal isentropic enthalpy drop scaled by the efficiency
gives the real work, and the exit state is read back from (h, P). -/
def Turbine.calculate (e : Engine) (state4 : GasSt) (PR_turb eff far : ℚ) :
    Option (GasSt × ℚ) :=
  let h_in_jkg := e.hX state4.X state4.T_K state4.P_Pa
  let s_in_jkgK := e.sX state4.X state4.T_K state4.P_Pa
  let Pt_out_Pa := state4.P_Pa / PR_turb
  match e.T_from_sP state4.X s_in_jkgK Pt_out_Pa with
  | none => none
  | some T_ideal_K =>
    let h_out_ideal_jkg := e.hX state4.X T_ideal_K Pt_out_Pa
    let h_drop_ideal := h_in_jkg - h_out_ideal_jkg
    let h_drop_real := h_drop_ideal * eff
    let h_out_jkg := h_in_jkg - h_drop_real
    match e.T_from_hP state4.X h_out_jkg Pt_out_Pa with
    | none => none
    | some T5_K => some (⟨state4.X, T5_K, Pt_out_Pa, 0⟩, h_drop_real)

/-- The solver objective closed over by Turbine.calculate_from_work:
enthalpy at the trial pressure on the inlet isentrope minus the ideal
exit enthalpy, guarded to 1e6 for non-positive pressure or a failed
property evaluation. -/
def Turbine.find_P_from_SH (e : Engine) (X4 : Comp)
    (s_in_jkgK h_out_ideal_jkg P_guess_Pa : ℚ) : ℚ :=
  if P_guess_Pa ≤ 0 then 1000000
  else
    match e.T_from_sP X4 s_in_jkgK P_guess_Pa with
    | some T_K => e.hX X4 T_K P_guess_Pa - h_out_ideal_jkg
    | none => 1000000

/-- Result of Turbine.calculate_from_work: the exit state together with
the intermediate quantities the routine assigns (real enthalpy drop, real
exit enthalpy, ideal exit enthalpy target, exit pressure) and whether the
pressure-solver fallback warning was reported. -/
structure TurbineWorkResult where
  state5 : GasSt
  h_drop_turb_jkg : ℚ
  h_out_jkg : ℚ
  h_out_ideal_jkg : ℚ
  Pt_out_Pa : ℚ
  warned : Bool
deriving DecidableEq

/-- Turbine.calculate_from_work (design-point mode): the real enthalpy
drop is the compressor work over (1+far), the ideal drop is back-computed
through the efficiency, and the exit pressure is the fsolve root of the
isentropic enthalpy residual seeded at the inlet pressure over 3; on
solver non-convergence the seed pressure is used with a warning.  The
final HP state set may raise, hence the Option. -/
def Turbine.calculate_from_work (e : Engine) (state4 : GasSt)
    (W_comp_jkg eff far : ℚ) : Option TurbineWorkResult :=
  let h_in_jkg := e.hX state4.X state4.T_K state4.P_Pa
  let s_in_jkgK := e.sX state4.X state4.T_K state4.P_Pa
  let h_drop_turb_jkg := W_comp_jkg / (1 + far)
  let h_out_jkg := h_in_jkg - h_drop_turb_jkg
  let h_out_ideal_jkg := h_in_jkg - h_drop_turb_jkg / eff
  let P_initial_guess := state4.P_Pa / 3
  let pres := e.fsolve
    (Turbine.find_P_from_SH e state4.X s_in_jkgK h_out_ideal_jkg)
    P_initial_guess
  let Pt_out_Pa := match pres with
    | some P => P
    | none => P_initial_guess
  match e.T_from_hP state4.X h_out_jkg Pt_out_Pa with
  | none => none
  | some T5_K =>
    some { state5 := ⟨state4.X, T5_K, Pt_out_Pa, 0⟩
           h_drop_turb_jkg := h_drop_turb_jkg
           h_out_jkg := h_out_jkg
           h_out_ideal_jkg := h_out_ideal_jkg
           Pt_out_Pa := Pt_out_Pa
           warned := pres.isNone }

/-- Throat pressure selection in Nozzle._calculate_throat: the critical
pressure governs when it exceeds ambient (choked), otherwise ambient
governs (unchoked). -/
def Nozzle.throatPressure (P_crit_Pa P_amb_Pa : ℚ) : ℚ :=
  if P_crit_Pa > P_amb_Pa then P_crit_Pa else P_amb_Pa

/-- Throat state produced by Nozzle._calculate_throat: density, velocity
and static enthalpy at the throat. -/
structure ThroatResult where
  rho_th_kg_m3 : ℚ
  V_th_mps : ℚ
  h_th_jkg : ℚ
deriving DecidableEq

/-- Tail of Nozzle._calculate_throat once the throat SP state at pressure
P_th is realised at temperature T_th: read enthalpy and density, clamp a
negative enthalpy drop to zero, velocity from the drop. -/
def Nozzle.throat_finish (e : Engine) (state_in : GasSt)
    (h_in_jkg T_th_K P_th_Pa : ℚ) : ThroatResult :=
  let h_th_jkg := e.hX state_in.X T_th_K P_th_Pa
  let rho_th_kg_m3 := e.rhoX state_in.X T_th_K P_th_Pa
  let h_drop0 := h_in_jkg - h_th_jkg
  let h_drop := if h_drop0 < 0 then 0 else h_drop0
  let V_th_mps := e.sqrt (2 * h_drop)
  ⟨rho_th_kg_m3, V_th_mps, h_th_jkg⟩

/-- Nozzle internal helper _calculate_throat: decide choking by comparing
the critical pressure (inlet pressure times the critical ratio of the
local specific-heat ratio) against ambient, set the throat pressure to
the binding one, then realise the throat state isentropically; if that
state set raises, fall back to the ambient pressure (floored at 1 Pa)
and try once more, this time letting a failure propagate. -/
def Nozzle.calculate_throat (e : Engine) (state_in : GasSt)
    (P_amb_Pa : ℚ) : Option ThroatResult :=
  let h_in_jkg := e.hX state_in.X state_in.T_K state_in.P_Pa
  let s_in_jkgK := e.sX state_in.X state_in.T_K state_in.P_Pa
  let P_in_Pa := state_in.P_Pa
  match e.T_from_sP state_in.X s_in_jkgK P_in_Pa with
  | none => none
  | some Tg_K =>
    let gamma := e.cpX state_in.X Tg_K P_in_Pa / e.cvX state_in.X Tg_K P_in_Pa
    let P_crit_Pa := P_in_Pa * e.powCrit gamma
    let P_th_Pa := Nozzle.throatPressure P_crit_Pa P_amb_Pa
    match e.T_from_sP state_in.X s_in_jkgK P_th_Pa with
    | some T_th_K => some (Nozzle.throat_finish e state_in h_in_jkg T_th_K P_th_Pa)
    | none =>
      let P_th2_Pa := if P_amb_Pa ≤ 0 then 1 else P_amb_Pa
      match e.T_from_sP state_in.X s_in_jkgK P_th2_Pa with
      | some T_th_K =>
          some (Nozzle.throat_finish e state_in h_in_jkg T_th_K P_th2_Pa)
      | none => none

/-- Nozzle internal helper _calculate_thrust: ideal exit velocity from an
isentropic expansion to ambient (falling back to a forced TP state when
that raises), gross thrust with the thrust coefficient, ram drag from the
flight velocity, net thrust as the difference; results in lbf. -/
def Nozzle.calculate_thrust (e : Engine) (state5 : GasSt)
    (W_air_pps P_amb_psia mn_flight Cfg T_amb_R : ℚ) : ℚ × ℚ × ℚ :=
  let h_in_jkg := e.hX state5.X state5.T_K state5.P_Pa
  let s_in_jkgK := e.sX state5.X state5.T_K state5.P_Pa
  let W_total_kgps := state5.W_kgps
  let P_amb_Pa := P_amb_psia * PSI_TO_PA
  let T_exp_K := match e.T_from_sP state5.X s_in_jkgK P_amb_Pa with
    | some T_K => T_K
    | none => state5.T_K
  let h_out_ideal_jkg := e.hX state5.X T_exp_K P_amb_Pa
  let h_drop0 := h_in_jkg - h_out_ideal_jkg
  let h_drop_ideal := if h_drop0 < 0 then 0 else h_drop0
  let V_ideal_mps := e.sqrt (2 * h_drop_ideal)
  let Fg_N := W_total_kgps * V_ideal_mps * Cfg
  let a_amb_mps := e.soundX airX (T_amb_R * RANKINE_TO_KELVIN) P_amb_Pa
  let V_flight_mps := mn_flight * a_amb_mps
  let W_air_kgps := W_air_pps * LBM_TO_KG
  let Fd_N := W_air_kgps * V_flight_mps
  let Fnet_N := Fg_N - Fd_N
  (Fnet_N / LBF_TO_N, Fg_N / LBF_TO_N, Fd_N / LBF_TO_N)

/-- Nozzle.calculate (off-design solver mode): thrust components plus the
theoretical mass flow through the fixed throat area. -/
def Nozzle.calculate (e : Engine) (state5 : GasSt)
    (W_air_pps P_amb_psia mn_flight Cfg Cd T_amb_R A_th_m2 : ℚ) :
    Option (ℚ × ℚ × ℚ × ℚ) :=
  let thrust := Nozzle.calculate_thrust e state5 W_air_pps P_amb_psia
    mn_flight Cfg T_amb_R
  let P_amb_Pa := P_amb_psia * PSI_TO_PA
  match Nozzle.calculate_throat e state5 P_amb_Pa with
  | none => none
  | some th =>
    let W_calc_kgps := th.rho_th_kg_m3 * th.V_th_mps * A_th_m2 * Cd
    some (thrust.1, thrust.2.1, thrust.2.2, W_calc_kgps / LBM_TO_KG)

/-- Outcome of Nozzle.calculate_design_point: either the result tuple,
the explicit ValueError raised on a degenerate (zero density times
velocity) throat, or a propagated property-engine failure. -/
inductive NozzleDPOutcome where
  | ok (Fnet_lbf Fg_lbf Fd_lbf A_th_m2_calc : ℚ)
  | valueError
  | engineError
deriving DecidableEq

/-- Nozzle.calculate_design_point (design-point mode): thrust components
plus the throat area back-computed from the mass flow; raises ValueError
when throat density times velocity is zero. -/
def Nozzle.calculate_design_point (e : Engine) (state5 : GasSt)
    (W_air_pps P_amb_psia mn_flight Cfg Cd T_amb_R : ℚ) : NozzleDPOutcome :=
  let thrust := Nozzle.calculate_thrust e state5 W_air_pps P_amb_psia
    mn_flight Cfg T_amb_R
  let P_amb_Pa := P_amb_psia * PSI_TO_PA
  match Nozzle.calculate_throat e state5 P_amb_Pa with
  | none => .engineError
  | some th =>
    let W_total_kgps := state5.W_kgps
    if th.rho_th_kg_m3 * th.V_th_mps = 0 then .valueError
    else .ok thrust.1 thrust.2.1 thrust.2.2
      (W_total_kgps / (th.rho_th_kg_m3 * th.V_th_mps * Cd))

/-- Placeholder compressor map from run_off_design_solver.py: corrected
speed and operating line to pressure ratio, corrected flow, efficiency,
each clamped from below. -/
def get_compressor_map (Nc_rpm R_line : ℚ) : ℚ × ℚ × ℚ :=
  let Nc_norm := Nc_rpm / 16540
  let PR_comp := (3 + 4 * Nc_norm) * R_line
  let Wc_pps_norm := (15 + 29 * Nc_norm) * (2 - R_line)
  let Eff_comp := 87 / 100 - (1 - Nc_norm) ^ 2 - (1 - R_line) ^ 2
  let PR_comp := if PR_comp < 1 then 1 else PR_comp
  let Wc_pps_norm := if Wc_pps_norm < 1 then 1 else Wc_pps_norm
  let Eff_comp := if Eff_comp < 1 / 2 then 1 / 2 else Eff_comp
  (PR_comp, Wc_pps_norm, Eff_comp)

/-- Placeholder turbine map from run_off_design_solver.py. -/
def get_turbine_map (Nc_rpm R_line : ℚ) : ℚ × ℚ :=
  let Nc_norm := Nc_rpm / 16540
  let PR_turb := (3 / 2 + 1163 / 1000 * Nc_norm) * (4 / 5 + R_line * (1 / 5))
  let Eff_turb := 17 / 20 - (1 - Nc_norm) ^ 2
  (PR_turb, Eff_turb)

/-- Corrected-to-actual mass-flow conversion uncorrect_flow. -/
def uncorrect_flow (e : Engine) (Wc_pps Pt_in_psia Tt_in_R : ℚ) : ℚ :=
  let theta := Tt_in_R / T_STD_R
  let delta := Pt_in_psia / P_STD_PSIA
  Wc_pps * delta / e.sqrt theta

/-- Fixed off-design input parameters (the params dict). -/
structure Params where
  P_amb_psia : ℚ
  T_amb_R : ℚ
  mn_flight : ℚ
  far_target : ℚ
  Burner_dP : ℚ
  Cfg : ℚ
  Cd : ℚ
deriving DecidableEq

/-- The performance_data dictionary assembled by calculate_performance. -/
structure PerfData where
  Fnet_lbf : ℚ
  SFC : ℚ
  W_air_pps : ℚ
  W_fuel_pps : ℚ
  far_target : ℚ
  Nc_rpm : ℚ
  R_line : ℚ
  PR_comp : ℚ
  PR_turb : ℚ
  Tt4 : ℚ
  Pt4 : ℚ
  Pt5 : ℚ
  Tt5 : ℚ
deriving DecidableEq

/-- The try block of the off-design objective calculate_performance: run
the full pipeline (inlet, compressor map and uncorrection, compressor,
burner from far, turbine map, turbine, nozzle at the fixed throat area)
at a trial point x = (Nc_rpm, R_line) and produce the scaled work- and
flow-balance residuals with the performance data; none models a raised
exception at any internal step. -/
def calculate_performance_body (e : Engine) (params : Params)
    (A_th_m2_fixed : ℚ) (x : ℚ × ℚ) : Option ((ℚ × ℚ) × PerfData) :=
  let Nc_rpm_guess := x.1
  let R_line_guess := x.2
  do
    let pt2tt2 ← Inlet.calculate_ram e params.P_amb_psia params.T_amb_R
      params.mn_flight
    let Pt2_psia := pt2tt2.1
    let Tt2_R := pt2tt2.2
    let cmap := get_compressor_map Nc_rpm_guess R_line_guess
    let PR_comp := cmap.1
    let Wc_pps_norm := cmap.2.1
    let Eff_comp := cmap.2.2
    let W_air_pps := uncorrect_flow e Wc_pps_norm Pt2_psia Tt2_R
    let W_air_kgps := W_air_pps * LBM_TO_KG
    let comp ← Compressor.calculate e Tt2_R Pt2_psia PR_comp Eff_comp
    let Pt3_psia := comp.1
    let Tt3_R := comp.2.1
    let W_comp_jkg := comp.2.2
    let Power_comp_W := W_comp_jkg * W_air_kgps
    let state3 : GasSt := ⟨airX, Tt3_R * RANKINE_TO_KELVIN,
      Pt3_psia * PSI_TO_PA, W_air_kgps⟩
    let state4 := Burner.calculate_from_far e state3 params.far_target
      params.Burner_dP
    let far := params.far_target
    let tmap := get_turbine_map Nc_rpm_guess R_line_guess
    let turb ← Turbine.calculate e state4 tmap.1 tmap.2 far
    let state5 := turb.1
    let W_turb_jkg := turb.2
    let W_total_kgps := W_air_kgps * (1 + far)
    let Power_turb_W := W_turb_jkg * W_total_kgps
    let state5 := { state5 with W_kgps := W_total_kgps }
    let noz ← Nozzle.calculate e state5 W_air_pps params.P_amb_psia
      params.mn_flight params.Cfg params.Cd params.T_amb_R A_th_m2_fixed
    let Fnet_lbf := noz.1
    let W_calc_pps := noz.2.2.2
    let err_work := (Power_turb_W - Power_comp_W) / 100000
    let err_flow := (W_air_pps - W_calc_pps) / 100
    let W_fuel_pps := W_air_pps * far
    let SFC := if Fnet_lbf > 0 then W_fuel_pps * 3600 / Fnet_lbf else 0
    pure ((err_work, err_flow),
      { Fnet_lbf := Fnet_lbf
        SFC := SFC
        W_air_pps := W_air_pps
        W_fuel_pps := W_fuel_pps
        far_target := far
        Nc_rpm := Nc_rpm_guess
        R_line := R_line_guess
        PR_comp := PR_comp
        PR_turb := tmap.1
        Tt4 := state4.T_K * KELVIN_TO_RANKINE
        Pt4 := state4.P_Pa / PSI_TO_PA
        Pt5 := state5.P_Pa / PSI_TO_PA
        Tt5 := state5.T_K * KELVIN_TO_RANKINE })

/-- Wrapper completing calculate_performance: the try block is the body
above; the except clause replaces any internal failure by the sentinel
residual vector (1e6, 1e6) and an empty data dictionary. -/
def calculate_performance (e : Engine) (params : Params)
    (A_th_m2_fixed : ℚ) (x : ℚ × ℚ) : (ℚ × ℚ) × Option PerfData :=
  match calculate_performance_body e params A_th_m2_fixed x with
  | some (errs, perf) => (errs, some perf)
  | none => ((1000000, 1000000), none)

/-- Concrete executable instantiation of the external interface with a
linear toy thermodynamics (h = T + P, s = T - P, with the matching HP and
SP inversions), a constant equilibrium temperature, and root-finders that
always fail.  Used to evaluate the embedded routines on concrete inputs. -/
def toyEng : Engine where
  hX := fun _ T P => T + P
  sX := fun _ T P => T - P
  rhoX := fun _ _ P => P
  cpX := fun _ _ _ => 2
  cvX := fun _ _ _ => 1
  soundX := fun _ _ _ => 340
  meanMW := fun _ => 1
  T_from_hP := fun _ h P => some (h - P)
  T_from_sP := fun _ s P => some (s + P)
  TP_from_sh := fun _ s h => some ((h + s) / 2, (h - s) / 2)
  equilibrateHP := fun X _ _ => some (X, 1000)
  fuelH := 0
  fuelMW := 1
  sqrt := fun q => q
  powCrit := fun _ => 1 / 2
  brentq := fun _ _ _ => none
  fsolve := fun _ _ => none

/-- Variant of the toy engine whose bracketed root-finder succeeds at the
bracket midpoint whenever the bracket is ordered and the objective there
is within 1e-6, mirroring a convergent brentq call. -/
def toyEngBrentq : Engine :=
  { toyEng with
    brentq := fun f a b =>
      if a ≤ b ∧ |f ((a + b) / 2)| ≤ 1 / 1000000 then some ((a + b) / 2)
      else none }

/-- Variant of the toy engine whose SP state set always raises, so that
every pipeline stage needing an isentropic state fails. -/
def toyEngFail : Engine :=
  { toyEng with T_from_sP := fun _ _ _ => none }

/-- C5: for every ambient pressure, ambient temperature and gas engine,
Inlet.calculate_ram at flight Mach number zero returns exactly the
ambient pressure and temperature unchanged. -/
theorem inlet_ram_mach_zero_identity (e : Engine) (P_amb_psia T_amb_R : ℚ) :
    Inlet.calculate_ram e P_amb_psia T_amb_R 0 = some (P_amb_psia, T_amb_R) := by
  simp [Inlet.calculate_ram]

/-- C7: the throat routine selects the critical pressure when it exceeds
ambient (choked) and the ambient pressure otherwise (unchoked); when the
two coincide, both branches yield the same throat pressure. -/
theorem nozzle_throat_pressure_binding (P_crit_Pa P_amb_Pa : ℚ) :
    (P_amb_Pa < P_crit_Pa →
      Nozzle.throatPressure P_crit_Pa P_amb_Pa = P_crit_Pa) ∧
    (P_crit_Pa ≤ P_amb_Pa →
      Nozzle.throatPressure P_crit_Pa P_amb_Pa = P_amb_Pa) ∧
    (P_crit_Pa = P_amb_Pa →
      Nozzle.throatPressure P_crit_Pa P_amb_Pa = P_crit_Pa ∧
      Nozzle.throatPressure P_crit_Pa P_amb_Pa = P_amb_Pa) := by
  refine ⟨fun h => ?_, fun h => ?_, fun h => ?_⟩
  · simp [Nozzle.throatPressure, h]
  · simp [Nozzle.throatPressure, not_lt.mpr h]
  · subst h
    simp [Nozzle.throatPressure]

/-- Witness for C7 at the exact choking boundary P_crit = P_amb = 5. -/
theorem nozzle_throat_pressure_binding_boundary :
    Nozzle.throatPressure 5 5 = 5 ∧ Nozzle.throatPressure 5 5 = 5 :=
  (nozzle_throat_pressure_binding 5 5).2.2 rfl

/-- C4: when the bracketed root search over the fuel/air ratio raises,
Burner.calculate_from_T4 does not raise; it reports the warning and
returns the state computed at the documented fallback ratio 0.017
together with that ratio. -/
theorem burner_T4_bracket_failure_fallback (e : Engine) (state3 : GasSt)
    (Tt_out_R dP_frac : ℚ)
    (hfail : e.brentq
        (Burner.objective_func e state3 (Tt_out_R * RANKINE_TO_KELVIN) dP_frac)
        (1 / 1000) (1 / 20) = none) :
    Burner.calculate_from_T4 e state3 Tt_out_R dP_frac =
      { state4 := Burner.perform_combustion e state3 (17 / 1000) dP_frac
        far_actual := 17 / 1000
        warned := true } := by
  simp only [Burner.calculate_from_T4, hfail]

/-- Witness for C4: the toy engine's root-finder always raises, and the
fallback record is produced at a concrete inlet state and target. -/
theorem burner_T4_bracket_failure_fallback_example :
    Burner.calculate_from_T4 toyEng ⟨airX, 600, 200000, 0⟩ 1800 (1 / 20) =
      { state4 := Burner.perform_combustion toyEng ⟨airX, 600, 200000, 0⟩
          (17 / 1000) (1 / 20)
        far_actual := 17 / 1000
        warned := true } :=
  burner_T4_bracket_failure_fallback toyEng ⟨airX, 600, 200000, 0⟩ 1800
    (1 / 20) rfl

/-- C10: the fuel/air ratio returned by Burner.calculate_from_T4 always
lies in the closed bracket [0.001, 0.05]: the root found inside the
bracket on success, and the fallback 0.017 on failure. -/
theorem burner_T4_far_in_bracket (e : Engine) (state3 : GasSt)
    (Tt_out_R dP_frac : ℚ)
    (hbracket : ∀ f a b x, e.brentq f a b = some x → a ≤ x ∧ x ≤ b) :
    1 / 1000 ≤ (Burner.calculate_from_T4 e state3 Tt_out_R dP_frac).far_actual ∧
    (Burner.calculate_from_T4 e state3 Tt_out_R dP_frac).far_actual ≤ 1 / 20 := by
  simp only [Burner.calculate_from_T4]
  cases hbr : e.brentq
      (Burner.objective_func e state3 (Tt_out_R * RANKINE_TO_KELVIN) dP_frac)
      (1 / 1000) (1 / 20) with
  | none =>
    exact ⟨by norm_num, by norm_num⟩
  | some far_actual =>
    exact hbracket _ _ _ _ hbr

/-- Witness for C10 with the toy engine (root search raising, fallback
0.017) at a concrete inlet state and target. -/
theorem burner_T4_far_in_bracket_example :
    1 / 1000 ≤ (Burner.calculate_from_T4 toyEng ⟨airX, 600, 200000, 0⟩ 1800
      (1 / 20)).far_actual ∧
    (Burner.calculate_from_T4 toyEng ⟨airX, 600, 200000, 0⟩ 1800
      (1 / 20)).far_actual ≤ 1 / 20 :=
  burner_T4_far_in_bracket toyEng ⟨airX, 600, 200000, 0⟩ 1800 (1 / 20)
    (fun f a b x h => by simp [toyEng] at h)

/-- C1: round-trip property of the burner.  When the bracketed root
search of Burner.calculate_from_T4 converges (no fallback warning), and
the root-finder returns points of the bracket whose objective value is
within its tolerance eps, then re-running Burner.calculate_from_far on
the same inlet state with the returned fuel/air ratio reproduces the
target exit temperature within eps. -/
theorem burner_roundtrip_exit_temperature (e : Engine) (state3 : GasSt)
    (Tt_out_R dP_frac eps : ℚ)
    (hacc : ∀ f a b x, e.brentq f a b = some x → |f x| ≤ eps)
    (hbracket : ∀ f a b x, e.brentq f a b = some x → a ≤ x ∧ x ≤ b)
    (hok : (Burner.calculate_from_T4 e state3 Tt_out_R dP_frac).warned = false) :
    |(Burner.calculate_from_far e state3
        (Burner.calculate_from_T4 e state3 Tt_out_R dP_frac).far_actual
        dP_frac).T_K - Tt_out_R * RANKINE_TO_KELVIN| ≤ eps := by
  simp only [Burner.calculate_from_T4] at hok ⊢
  cases hbr : e.brentq
      (Burner.objective_func e state3 (Tt_out_R * RANKINE_TO_KELVIN) dP_frac)
      (1 / 1000) (1 / 20) with
  | none =>
    rw [hbr] at hok
    simp at hok
  | some far_actual =>
    have hb := hbracket _ _ _ _ hbr
    have ha := hacc _ _ _ _ hbr
    have hguard : ¬(far_actual < 1 / 1000 ∨ far_actual > 1 / 10) := by
      push_neg
      exact ⟨hb.1, by linarith [hb.2]⟩
    simp only [Burner.objective_func] at ha
    rw [if_neg hguard] at ha
    simpa [Burner.calculate_from_far] using ha

/-- Witness for C1: a toy engine whose root-finder converges at the
bracket midpoint, an inlet state and a target temperature realised there
exactly; the round-trip error is within the tolerance. -/
theorem burner_roundtrip_exit_temperature_example :
    |(Burner.calculate_from_far toyEngBrentq ⟨airX, 600, 200000, 0⟩
        (Burner.calculate_from_T4 toyEngBrentq ⟨airX, 600, 200000, 0⟩ 1800
          (1 / 20)).far_actual (1 / 20)).T_K
      - 1800 * RANKINE_TO_KELVIN| ≤ 1 / 1000000 :=
  burner_roundtrip_exit_temperature toyEngBrentq ⟨airX, 600, 200000, 0⟩ 1800
    (1 / 20) (1 / 1000000)
    (fun f a b x h => by
      simp only [toyEngBrentq, toyEng] at h
      split_ifs at h with hc
      cases h
      exact hc.2)
    (fun f a b x h => by
      simp only [toyEngBrentq, toyEng] at h
      split_ifs at h with hc
      cases h
      constructor <;> linarith [hc.1])
    (by norm_num [Burner.calculate_from_T4, toyEngBrentq, toyEng,
      Burner.objective_func, Burner.perform_combustion, airX,
      RANKINE_TO_KELVIN])

/-- C2: Turbine.calculate_from_work sets the real specific enthalpy drop
to the compressor work divided by (1 + far), the real exit enthalpy to
the inlet enthalpy minus that drop, and the ideal isentropic exit
enthalpy target to the inlet enthalpy minus the drop divided by the
efficiency. -/
theorem turbine_from_work_enthalpy_relations (e : Engine) (state4 : GasSt)
    (W_comp_jkg eff far : ℚ) (r : TurbineWorkResult)
    (hres : Turbine.calculate_from_work e state4 W_comp_jkg eff far = some r) :
    r.h_drop_turb_jkg = W_comp_jkg / (1 + far) ∧
    r.h_out_jkg =
      e.hX state4.X state4.T_K state4.P_Pa - W_comp_jkg / (1 + far) ∧
    r.h_out_ideal_jkg =
      e.hX state4.X state4.T_K state4.P_Pa - W_comp_jkg / (1 + far) / eff := by
  simp only [Turbine.calculate_from_work] at hres
  cases hT : e.T_from_hP state4.X
      (e.hX state4.X state4.T_K state4.P_Pa - W_comp_jkg / (1 + far))
      (match e.fsolve
          (Turbine.find_P_from_SH e state4.X
            (e.sX state4.X state4.T_K state4.P_Pa)
            (e.hX state4.X state4.T_K state4.P_Pa - W_comp_jkg / (1 + far) / eff))
          (state4.P_Pa / 3) with
        | some P => P
        | none => state4.P_Pa / 3) with
  | none =>
    rw [hT] at hres
    cases hres
  | some T5_K =>
    rw [hT] at hres
    cases hres
    exact ⟨rfl, rfl, rfl⟩

/-- Witness for C2 on the toy engine at a concrete turbine-inlet state,
compressor work 300 J/kg, efficiency 1/2 and far 1/2. -/
theorem turbine_from_work_enthalpy_relations_example :
    (⟨⟨airX, 200800, 100000, 0⟩, 200, 300800, 300600, 100000,
        true⟩ : TurbineWorkResult).h_drop_turb_jkg = 300 / (1 + 1 / 2) ∧
    (⟨⟨airX, 200800, 100000, 0⟩, 200, 300800, 300600, 100000,
        true⟩ : TurbineWorkResult).h_out_jkg =
      toyEng.hX airX 1000 300000 - 300 / (1 + 1 / 2) ∧
    (⟨⟨airX, 200800, 100000, 0⟩, 200, 300800, 300600, 100000,
        true⟩ : TurbineWorkResult).h_out_ideal_jkg =
      toyEng.hX airX 1000 300000 - 300 / (1 + 1 / 2) / (1 / 2) :=
  turbine_from_work_enthalpy_relations toyEng ⟨airX, 1000, 300000, 0⟩ 300
    (1 / 2) (1 / 2) ⟨⟨airX, 200800, 100000, 0⟩, 200, 300800, 300600, 100000,
      true⟩ (by norm_num [Turbine.calculate_from_work, toyEng, airX,
        Turbine.find_P_from_SH])

/-- C8: the exit-pressure search of Turbine.calculate_from_work is seeded
at the inlet pressure divided by 3, and when that search does not
converge the routine reports a warning and uses the seed itself as the
exit pressure. -/
theorem turbine_from_work_solver_fallback (e : Engine) (state4 : GasSt)
    (W_comp_jkg eff far : ℚ) (r : TurbineWorkResult)
    (hfail : e.fsolve
        (Turbine.find_P_from_SH e state4.X
          (e.sX state4.X state4.T_K state4.P_Pa)
          (e.hX state4.X state4.T_K state4.P_Pa - W_comp_jkg / (1 + far) / eff))
        (state4.P_Pa / 3) = none)
    (hres : Turbine.calculate_from_work e state4 W_comp_jkg eff far = some r) :
    r.Pt_out_Pa = state4.P_Pa / 3 ∧ r.warned = true := by
  simp only [Turbine.calculate_from_work, hfail] at hres
  cases hT : e.T_from_hP state4.X
      (e.hX state4.X state4.T_K state4.P_Pa - W_comp_jkg / (1 + far))
      (state4.P_Pa / 3) with
  | none =>
    rw [hT] at hres
    cases hres
  | some T5_K =>
    rw [hT] at hres
    cases hres
    exact ⟨rfl, rfl⟩

/-- Witness for C8: the toy engine's fsolve never converges, so at a
concrete state the exit pressure is the seed 300000/3 and the warning
flag is set. -/
theorem turbine_from_work_solver_fallback_example :
    (⟨⟨airX, 200800, 100000, 0⟩, 200, 300800, 300600, 100000,
        true⟩ : TurbineWorkResult).Pt_out_Pa = (⟨airX, 1000, 300000, 0⟩ :
        GasSt).P_Pa / 3 ∧
    (⟨⟨airX, 200800, 100000, 0⟩, 200, 300800, 300600, 100000,
        true⟩ : TurbineWorkResult).warned = true :=
  turbine_from_work_solver_fallback toyEng ⟨airX, 1000, 300000, 0⟩ 300
    (1 / 2) (1 / 2) ⟨⟨airX, 200800, 100000, 0⟩, 200, 300800, 300600, 100000,
      true⟩ rfl (by norm_num [Turbine.calculate_from_work, toyEng, airX,
        Turbine.find_P_from_SH])

/-- C3: whenever any internal step of the off-design objective fails (no
performance data is produced), calculate_performance returns the fixed
sentinel residual vector (1e6, 1e6) instead of propagating the failure. -/
theorem off_design_failure_sentinel (e : Engine) (params : Params)
    (A_th_m2_fixed : ℚ) (x : ℚ × ℚ)
    (hfail : (calculate_performance e params A_th_m2_fixed x).2 = none) :
    (calculate_performance e params A_th_m2_fixed x).1 = (1000000, 1000000) := by
  simp only [calculate_performance] at hfail ⊢
  cases hb : calculate_performance_body e params A_th_m2_fixed x with
  | none =>
    rfl
  | some v =>
    obtain ⟨errs, perf⟩ := v
    rw [hb] at hfail
    simp at hfail

/-- Witness for C3: with an engine whose SP state set always raises, the
pipeline fails at the compressor and the sentinel vector is returned at a
concrete trial point. -/
theorem off_design_failure_sentinel_example :
    (calculate_performance toyEngFail
        ⟨14696 / 1000, 51867 / 100, 0, 171 / 10000, 1 / 20, 49 / 50, 1⟩
        (882 / 10000) (16540, 1)).1 = (1000000, 1000000) :=
  off_design_failure_sentinel toyEngFail
    ⟨14696 / 1000, 51867 / 100, 0, 171 / 10000, 1 / 20, 49 / 50, 1⟩
    (882 / 10000) (16540, 1)
    (by norm_num [calculate_performance, calculate_performance_body,
      Inlet.calculate_ram, uncorrect_flow, get_compressor_map,
      Compressor.calculate, toyEngFail, toyEng])

/-- C9: given a successfully computed throat state, the design-point
nozzle routine raises the invalid-operating-point ValueError exactly when
throat density times velocity is zero, and otherwise returns the throat
area as total mass flow over (density times velocity times discharge
coefficient), together with the thrust components. -/
theorem nozzle_design_point_degeneracy (e : Engine) (state5 : GasSt)
    (W_air_pps P_amb_psia mn_flight Cfg Cd T_amb_R : ℚ) (th : ThroatResult)
    (hth : Nozzle.calculate_throat e state5 (P_amb_psia * PSI_TO_PA) = some th) :
    (Nozzle.calculate_design_point e state5 W_air_pps P_amb_psia mn_flight
        Cfg Cd T_amb_R = NozzleDPOutcome.valueError ↔
      th.rho_th_kg_m3 * th.V_th_mps = 0) ∧
    (th.rho_th_kg_m3 * th.V_th_mps ≠ 0 →
      Nozzle.calculate_design_point e state5 W_air_pps P_amb_psia mn_flight
          Cfg Cd T_amb_R =
        NozzleDPOutcome.ok
          (Nozzle.calculate_thrust e state5 W_air_pps P_amb_psia mn_flight
            Cfg T_amb_R).1
          (Nozzle.calculate_thrust e state5 W_air_pps P_amb_psia mn_flight
            Cfg T_amb_R).2.1
          (Nozzle.calculate_thrust e state5 W_air_pps P_amb_psia mn_flight
            Cfg T_amb_R).2.2
          (state5.W_kgps / (th.rho_th_kg_m3 * th.V_th_mps * Cd))) := by
  simp only [Nozzle.calculate_design_point, hth]
  by_cases h0 : th.rho_th_kg_m3 * th.V_th_mps = 0
  · rw [if_pos h0]
    simp [h0]
  · rw [if_neg h0]
    simp [h0]

/-- Witness for C9 on the toy engine at a concrete turbine-exit state
whose throat density times velocity is nonzero: the ok outcome with the
back-computed throat area. -/
theorem nozzle_design_point_degeneracy_example :
    Nozzle.calculate_design_point toyEng ⟨airX, 1000, 300000, 10⟩ 3 1 0 1 1
        520 =
      NozzleDPOutcome.ok
        (Nozzle.calculate_thrust toyEng ⟨airX, 1000, 300000, 10⟩ 3 1 0 1
          520).1
        (Nozzle.calculate_thrust toyEng ⟨airX, 1000, 300000, 10⟩ 3 1 0 1
          520).2.1
        (Nozzle.calculate_thrust toyEng ⟨airX, 1000, 300000, 10⟩ 3 1 0 1
          520).2.2
        ((⟨airX, 1000, 300000, 10⟩ : GasSt).W_kgps /
          ((150000 : ℚ) * 600000 * 1)) :=
  (nozzle_design_point_degeneracy toyEng ⟨airX, 1000, 300000, 10⟩ 3 1 0 1 1
    520 ⟨150000, 600000, 1000⟩
    (by norm_num [Nozzle.calculate_throat, Nozzle.throatPressure,
      Nozzle.throat_finish, toyEng, airX, PSI_TO_PA])).2 (by norm_num)

/-- C6: for a physically monotone gas model (isentropic enthalpy and
temperature increase with pressure, temperature increases with enthalpy
at fixed pressure, and the SP and HP state sets invert the property
reads), any successful Compressor.calculate call with pressure ratio
above 1, efficiency in (0, 1] and positive inlet pressure yields an exit
total temperature at least the inlet total temperature and a strictly
positive specific work. -/
theorem compressor_exit_temp_and_work (e : Engine)
    (Tt_in_R Pt_in_psia PR eff Pout_psia Tout_R W : ℚ)
    (hres : Compressor.calculate e Tt_in_R Pt_in_psia PR eff
      = some (Pout_psia, Tout_R, W))
    (hPR : 1 < PR) (heff0 : 0 < eff) (heff1 : eff ≤ 1)
    (hPpos : 0 < Pt_in_psia)
    (hSPc : ∀ T P, e.T_from_sP airX (e.sX airX T P) P = some T)
    (hHPc : ∀ T P, e.T_from_hP airX (e.hX airX T P) P = some T)
    (hIsenH : ∀ s Pa Pb Ta Tb, 0 < Pa → Pa < Pb →
      e.T_from_sP airX s Pa = some Ta → e.T_from_sP airX s Pb = some Tb →
      e.hX airX Ta Pa < e.hX airX Tb Pb)
    (hIsenT : ∀ s Pa Pb Ta Tb, 0 < Pa → Pa ≤ Pb →
      e.T_from_sP airX s Pa = some Ta → e.T_from_sP airX s Pb = some Tb →
      Ta ≤ Tb)
    (hHmono : ∀ P ha hb Ta Tb, ha ≤ hb →
      e.T_from_hP airX ha P = some Ta → e.T_from_hP airX hb P = some Tb →
      Ta ≤ Tb) :
    Tt_in_R ≤ Tout_R ∧ 0 < W := by
  have hPSI : (0 : ℚ) < PSI_TO_PA := by norm_num [PSI_TO_PA]
  have hP1pos : 0 < Pt_in_psia * PSI_TO_PA := mul_pos hPpos hPSI
  have hlt : Pt_in_psia * PSI_TO_PA < Pt_in_psia * PSI_TO_PA * PR := by
    nlinarith
  simp only [Compressor.calculate] at hres
  split at hres
  next h1 => cases hres
  next Tid h1 =>
    split at hres
    next h2 => cases hres
    next ToutK h2 =>
      simp only [Option.some.injEq, Prod.mk.injEq] at hres
      obtain ⟨hPo, hTo, hW⟩ := hres
      have hins := hSPc (Tt_in_R * RANKINE_TO_KELVIN) (Pt_in_psia * PSI_TO_PA)
      have hhlt : e.hX airX (Tt_in_R * RANKINE_TO_KELVIN)
            (Pt_in_psia * PSI_TO_PA) <
          e.hX airX Tid (Pt_in_psia * PSI_TO_PA * PR) :=
        hIsenH _ _ _ _ _ hP1pos hlt hins h1
      have hWpos : 0 <
          (e.hX airX Tid (Pt_in_psia * PSI_TO_PA * PR) -
            e.hX airX (Tt_in_R * RANKINE_TO_KELVIN) (Pt_in_psia * PSI_TO_PA)) /
            eff :=
        div_pos (by linarith) heff0
      have hTlow : Tt_in_R * RANKINE_TO_KELVIN ≤ Tid :=
        hIsenT _ _ _ _ _ hP1pos hlt.le hins h1
      have hdge : e.hX airX Tid (Pt_in_psia * PSI_TO_PA * PR) -
            e.hX airX (Tt_in_R * RANKINE_TO_KELVIN) (Pt_in_psia * PSI_TO_PA) ≤
          (e.hX airX Tid (Pt_in_psia * PSI_TO_PA * PR) -
            e.hX airX (Tt_in_R * RANKINE_TO_KELVIN) (Pt_in_psia * PSI_TO_PA)) /
            eff := by
        rw [le_div_iff₀ heff0]
        nlinarith
      have hThi : Tid ≤ ToutK :=
        hHmono (Pt_in_psia * PSI_TO_PA * PR) _ _ _ _ (by linarith)
          (hHPc Tid (Pt_in_psia * PSI_TO_PA * PR)) h2
      have hKR : (0 : ℚ) < KELVIN_TO_RANKINE := by
        norm_num [KELVIN_TO_RANKINE]
      have hid : Tt_in_R * RANKINE_TO_KELVIN * KELVIN_TO_RANKINE = Tt_in_R := by
        simp only [RANKINE_TO_KELVIN, KELVIN_TO_RANKINE]
        ring
      constructor
      · calc Tt_in_R = Tt_in_R * RANKINE_TO_KELVIN * KELVIN_TO_RANKINE :=
              hid.symm
          _ ≤ ToutK * KELVIN_TO_RANKINE := by
              have : Tt_in_R * RANKINE_TO_KELVIN ≤ ToutK := le_trans hTlow hThi
              nlinarith
          _ = Tout_R := hTo
      · rw [← hW]
        exact hWpos

/-- Witness for C6: the toy linear gas model satisfies every physical
monotonicity hypothesis, and at inlet 9 R, 1 psia, pressure ratio 2 and
efficiency 1/2 the embedded compressor returns exit temperature
4655088/125 R above the inlet 9 R and work 689476/25 J/kg above zero. -/
theorem compressor_exit_temp_and_work_example :
    (9 : ℚ) ≤ 4655088 / 125 ∧ (0 : ℚ) < 689476 / 25 :=
  compressor_exit_temp_and_work toyEng 9 1 2 (1 / 2) 2 (4655088 / 125)
    (689476 / 25)
    (by norm_num [Compressor.calculate, toyEng, airX, RANKINE_TO_KELVIN,
      KELVIN_TO_RANKINE, PSI_TO_PA])
    (by norm_num) (by norm_num) (by norm_num) (by norm_num)
    (fun T P => by
      simp only [toyEng, Option.some.injEq]
      ring)
    (fun T P => by
      simp only [toyEng, Option.some.injEq]
      ring)
    (fun s Pa Pb Ta Tb hp hlt e1 e2 => by
      simp only [toyEng, Option.some.injEq] at e1 e2 ⊢
      subst e1
      subst e2
      linarith)
    (fun s Pa Pb Ta Tb hp hle e1 e2 => by
      simp only [toyEng, Option.some.injEq] at e1 e2 ⊢
      subst e1
      subst e2
      linarith)
    (fun P ha hb Ta Tb hle e1 e2 => by
      simp only [toyEng, Option.some.injEq] at e1 e2 ⊢
      subst e1
      subst e2
      linarith)

end GasTurbine
